import Mathlib

/-!
Shallow embedding of `custom_components/octoprint_hass/octoprint_rest_api.py`
(the `OctoPrint` device-client class) and proofs about its behaviour.

HTTP traffic is modelled by an oracle: each operation receives the list of
responses the server would return, consumes one response per request it
issues, and records the requests it makes as a trace.  Response bodies are
modelled by the fields the code actually extracts (`app_token`, `api_key`)
plus an abstract parsed payload for the read operations (`none` standing
for a body that fails to parse, i.e. `json()` raising `ValueError`).
-/

/-- Mutable state of an `OctoPrint` instance: `base_url`, the header
dictionary, the stored `api_key` (`None` modelled as `none`) and the
`connected` flag. -/
structure OctoPrintState where
  base_url : String
  headers : List (String × String)
  api_key : Option String
  connected : Bool
deriving Repr, DecidableEq

/-- Constructor `OctoPrint.__init__(host, port, path='/')`:
`base_url = 'http://{host}:{port}{path}'`, empty headers, no key, not
connected. -/
def OctoPrint.init (host : String) (port : Nat) (path : String := "/") :
    OctoPrintState :=
  { base_url := "http://" ++ host ++ ":" ++ toString port ++ path
    headers := []
    api_key := none
    connected := false }

/-- Method `OctoPrint._set_api_key(key)`: stores the key, rebuilds the
header dictionary to the single `X-Api-Key` entry, returns `True`. -/
def OctoPrint._set_api_key (s : OctoPrintState) (key : String) :
    OctoPrintState × Bool :=
  ({ s with api_key := some key, headers := [("X-Api-Key", key)] }, true)

/-- A server response, restricted to the fields the handshake code reads:
the status code and the two body fields it may extract. -/
structure HttpResponse where
  status : Nat
  app_token : Option String := none
  api_key : Option String := none
deriving Repr, DecidableEq

/-- One HTTP request issued by the client, recorded as method and URL. -/
structure ReqRecord where
  method : String
  url : String
deriving Repr, DecidableEq

/-- Result of `get_api_key`: a normal return value (`True`/`False`) or an
exception raised with the given message. -/
inductive HandshakeResult where
  | ok (b : Bool)
  | exn (msg : String)
deriving Repr, DecidableEq

/-- Outcome of a handshake run: final state, trace of issued requests, and
the returned/raised result. -/
structure HandshakeOutcome where
  state : OctoPrintState
  trace : List ReqRecord
  result : HandshakeResult
deriving Repr, DecidableEq

/-- The probe request of `get_api_key`. -/
def probeReq (s : OctoPrintState) : ReqRecord :=
  ⟨"GET", s.base_url ++ "plugin/appkeys/probe"⟩

/-- The token-request POST of `get_api_key`. -/
def requestReq (s : OctoPrintState) : ReqRecord :=
  ⟨"POST", s.base_url ++ "plugin/appkeys/request"⟩

/-- A poll GET of `get_api_key` for a given app token. -/
def pollReq (s : OctoPrintState) (token : String) : ReqRecord :=
  ⟨"GET", s.base_url ++ "plugin/appkeys/request/" ++ token⟩

/-- The `while response.status_code == 202:` loop of `get_api_key`.
`cur` is the status of the response currently held in `response`; each
iteration issues one more poll GET (consuming the oracle), then checks the
new response for `200` (store key, return `True`) or `404` (raise
"User denied access"); any other status is re-tested by the loop guard.
An exhausted oracle is reported as a distinguished exception (no real run
of interest consumes past its oracle). -/
def pollLoop (s : OctoPrintState) (token : String) (cur : Nat)
    (responses : List HttpResponse) (trace : List ReqRecord) :
    HandshakeOutcome :=
  if cur = 202 then
    match responses with
    | [] => ⟨s, trace, .exn "oracle exhausted"⟩
    | r :: rest =>
      let trace := trace ++ [pollReq s token]
      if r.status = 200 then
        match r.api_key with
        | some k =>
          ⟨{ (OctoPrint._set_api_key s k).1 with connected := true },
            trace, .ok true⟩
        | none => ⟨s, trace, .exn "KeyError"⟩
      else if r.status = 404 then
        ⟨s, trace, .exn "User denied access"⟩
      else
        pollLoop s token r.status rest trace
  else
    ⟨s, trace, .ok false⟩

/-- Method `OctoPrint.get_api_key(app_name, user_name, timeout)`: probe
(expect 204), token request (expect 201, read `app_token`), first poll
GET, then the `while 202` loop.  The oracle list supplies the responses
in request order. -/
def OctoPrint.get_api_key (s : OctoPrintState)
    (responses : List HttpResponse) : HandshakeOutcome :=
  match responses with
  | [] => ⟨s, [], .exn "oracle exhausted"⟩
  | probe_r :: rest =>
    let trace := [probeReq s]
    if probe_r.status = 204 then
      match rest with
      | [] => ⟨s, trace, .exn "oracle exhausted"⟩
      | req_r :: rest2 =>
        let trace := trace ++ [requestReq s]
        if req_r.status = 201 then
          match req_r.app_token with
          | none => ⟨s, trace, .exn "KeyError"⟩
          | some token =>
            match rest2 with
            | [] => ⟨s, trace, .exn "oracle exhausted"⟩
            | p0 :: rest3 =>
              pollLoop s token p0.status rest3
                (trace ++ [pollReq s token])
        else
          ⟨s, trace, .exn "User not created"⟩
    else
      ⟨s, trace,
        .exn "Instance does not seem to support Application Keys Plugin"⟩

/-- The revoke POST of `deregister`, with its JSON body
`command: "revoke", key: self.api_key` (the key field is the stored key,
`none` when no key is stored, mirroring JSON `null`). -/
structure RevokeRequest where
  url : String
  command : String
  key : Option String
deriving Repr, DecidableEq

/-- Outcome of `deregister`: final state, issued revoke requests, returned
boolean. -/
structure DeregOutcome where
  state : OctoPrintState
  trace : List RevokeRequest
  result : Bool
deriving Repr, DecidableEq

/-- Method `OctoPrint.deregister()`: unconditionally POST the revoke body
to `api/plugin/appkeys`; on status 204 set `connected := false` and return
`True`; on any other status return `False`; a `ConnectionError` (oracle
`none`) is caught and yields `False`.  The state is otherwise unchanged. -/
def OctoPrint.deregister (s : OctoPrintState) (oracle : Option HttpResponse) :
    DeregOutcome :=
  let req : RevokeRequest :=
    ⟨s.base_url ++ "api/plugin/appkeys", "revoke", s.api_key⟩
  match oracle with
  | none => ⟨s, [req], false⟩
  | some r =>
    if r.status = 204 then
      ⟨{ s with connected := false }, [req], true⟩
    else
      ⟨s, [req], false⟩

/-- The job-command POST of `pause_print`/`resume_print`, with its JSON
body fields `command` and `action`. -/
structure JobRequest where
  url : String
  command : String
  action : String
deriving Repr, DecidableEq

/-- Result of a command operation: the raw response object on success
(Python returns the `requests` response), or `False`. -/
inductive CmdResult where
  | response (r : HttpResponse)
  | failure
deriving Repr, DecidableEq

/-- Outcome of `pause_print`/`resume_print`. -/
structure CmdOutcome where
  state : OctoPrintState
  trace : List JobRequest
  result : CmdResult
deriving Repr, DecidableEq

/-- Method `OctoPrint.pause_print()`: only when `connected`, POST
`command: 'pause', action: 'pause'` to `api/job` and return the response;
a `ConnectionError` (oracle `none`) yields `False`.  When not connected,
return `False` with no request issued. -/
def OctoPrint.pause_print (s : OctoPrintState)
    (oracle : Option HttpResponse) : CmdOutcome :=
  if s.connected then
    let req : JobRequest := ⟨s.base_url ++ "api/job", "pause", "pause"⟩
    match oracle with
    | some r => ⟨s, [req], .response r⟩
    | none => ⟨s, [req], .failure⟩
  else
    ⟨s, [], .failure⟩

/-- Method `OctoPrint.resume_print()`: only when `connected`, POST
`command: 'pause', action: 'resume'` (the source reuses the `pause`
command) to `api/job` and return the response; a `ConnectionError`
(oracle `none`) yields `False`.  When not connected, return `False` with
no request issued. -/
def OctoPrint.resume_print (s : OctoPrintState)
    (oracle : Option HttpResponse) : CmdOutcome :=
  if s.connected then
    let req : JobRequest := ⟨s.base_url ++ "api/job", "pause", "resume"⟩
    match oracle with
    | some r => ⟨s, [req], .response r⟩
    | none => ⟨s, [req], .failure⟩
  else
    ⟨s, [], .failure⟩

/-- A response to a read operation: `body = some p` is a body that parses
as the structured payload `p` (payloads kept abstract as strings),
`body = none` is a body whose parse raises `ValueError`. -/
structure ReadResponse where
  body : Option String
deriving Repr, DecidableEq

/-- Return value of a read operation: the parsed payload, or the `False`
sentinel returned when the body fails to parse. -/
inductive ReadResult where
  | payload (p : String)
  | unavailable
deriving Repr, DecidableEq

/-- The shared `try: return ....json() except ValueError: return False`
pattern of every read operation. -/
def readJson (r : ReadResponse) : ReadResult :=
  match r.body with
  | some p => .payload p
  | none => .unavailable

/-- Method `OctoPrint.retrieve_appkeys()`. -/
def OctoPrint.retrieve_appkeys (s : OctoPrintState) (r : ReadResponse) :
    ReqRecord × ReadResult :=
  (⟨"GET", s.base_url ++ "api/plugin/appkeys"⟩, readJson r)

/-- Method `OctoPrint.get_printer_version()`. -/
def OctoPrint.get_printer_version (s : OctoPrintState) (r : ReadResponse) :
    ReqRecord × ReadResult :=
  (⟨"GET", s.base_url ++ "api/version"⟩, readJson r)

/-- Method `OctoPrint.get_printer_status()`. -/
def OctoPrint.get_printer_status (s : OctoPrintState) (r : ReadResponse) :
    ReqRecord × ReadResult :=
  (⟨"GET", s.base_url ++ "api/printer"⟩, readJson r)

/-- Method `OctoPrint.get_printer_connection()`. -/
def OctoPrint.get_printer_connection (s : OctoPrintState) (r : ReadResponse) :
    ReqRecord × ReadResult :=
  (⟨"GET", s.base_url ++ "api/connection"⟩, readJson r)

/-- Method `OctoPrint.get_printer_files()`. -/
def OctoPrint.get_printer_files (s : OctoPrintState) (r : ReadResponse) :
    ReqRecord × ReadResult :=
  (⟨"GET", s.base_url ++ "api/files?recursive=true"⟩, readJson r)

/-- Method `OctoPrint.get_printer_job()`. -/
def OctoPrint.get_printer_job (s : OctoPrintState) (r : ReadResponse) :
    ReqRecord × ReadResult :=
  (⟨"GET", s.base_url ++ "api/job"⟩, readJson r)

/-- Method `OctoPrint.get_printer_tool_state()`. -/
def OctoPrint.get_printer_tool_state (s : OctoPrintState) (r : ReadResponse) :
    ReqRecord × ReadResult :=
  (⟨"GET", s.base_url ++ "api/printer/tool"⟩, readJson r)

/-- Method `OctoPrint.get_printer_bed_state()`. -/
def OctoPrint.get_printer_bed_state (s : OctoPrintState) (r : ReadResponse) :
    ReqRecord × ReadResult :=
  (⟨"GET", s.base_url ++ "api/printer/bed"⟩, readJson r)

/-- Method `OctoPrint.get_printer_chamber_state()`. -/
def OctoPrint.get_printer_chamber_state (s : OctoPrintState)
    (r : ReadResponse) : ReqRecord × ReadResult :=
  (⟨"GET", s.base_url ++ "api/printer/chamber"⟩, readJson r)

/-- Method `OctoPrint.get_printer_sd_state()`. -/
def OctoPrint.get_printer_sd_state (s : OctoPrintState) (r : ReadResponse) :
    ReqRecord × ReadResult :=
  (⟨"GET", s.base_url ++ "api/printer/sd"⟩, readJson r)

/-- Method `OctoPrint.get_printer_profiles()`. -/
def OctoPrint.get_printer_profiles (s : OctoPrintState) (r : ReadResponse) :
    ReqRecord × ReadResult :=
  (⟨"GET", s.base_url ++ "api/printerprofiles"⟩, readJson r)

/-- Method `OctoPrint.get_printer_settings()`. -/
def OctoPrint.get_printer_settings (s : OctoPrintState) (r : ReadResponse) :
    ReqRecord × ReadResult :=
  (⟨"GET", s.base_url ++ "api/settings"⟩, readJson r)

/-- Method `OctoPrint.get_slicing()`. -/
def OctoPrint.get_slicing (s : OctoPrintState) (r : ReadResponse) :
    ReqRecord × ReadResult :=
  (⟨"GET", s.base_url ++ "api/slicing"⟩, readJson r)

/-- Method `OctoPrint.get_system_commands()`. -/
def OctoPrint.get_system_commands (s : OctoPrintState) (r : ReadResponse) :
    ReqRecord × ReadResult :=
  (⟨"GET", s.base_url ++ "api/system/commands"⟩, readJson r)

/-- Method `OctoPrint.get_timelapse()`. -/
def OctoPrint.get_timelapse (s : OctoPrintState) (r : ReadResponse) :
    ReqRecord × ReadResult :=
  (⟨"GET", s.base_url ++ "api/timelapse"⟩, readJson r)

/-- Method `OctoPrint.set_printer_settings()`: POST a fixed appearance
payload to `api/settings` and return the response unchanged.  Only its
request URL matters here. -/
def OctoPrint.set_printer_settings (s : OctoPrintState) (r : HttpResponse) :
    ReqRecord × HttpResponse :=
  (⟨"POST", s.base_url ++ "api/settings"⟩, r)

/-- One client operation together with the oracle responses its run
consumes, for reasoning about reachable states. -/
inductive ClientOp where
  | set_key (k : String)
  | handshake (rs : List HttpResponse)
  | dereg (r : Option HttpResponse)
  | pause (r : Option HttpResponse)
  | resume (r : Option HttpResponse)
deriving Repr, DecidableEq

/-- State transition of one client operation (the state component of the
corresponding method). -/
def applyOp (s : OctoPrintState) (op : ClientOp) : OctoPrintState :=
  match op with
  | .set_key k => (OctoPrint._set_api_key s k).1
  | .handshake rs => (OctoPrint.get_api_key s rs).state
  | .dereg r => (OctoPrint.deregister s r).state
  | .pause r => (OctoPrint.pause_print s r).state
  | .resume r => (OctoPrint.resume_print s r).state

/-- Run a sequence of client operations from a starting state. -/
def runOps (s : OctoPrintState) (ops : List ClientOp) : OctoPrintState :=
  ops.foldl applyOp s

/-- A fixed freshly constructed client, used as concrete input in
counterexamples and witnesses. -/
def demoClient : OctoPrintState := OctoPrint.init "octopi.local" 80 "/"

theorem pollLoop_exit (s : OctoPrintState) (tok : String) (cur : Nat)
    (rs : List HttpResponse) (trace : List ReqRecord) (h : cur ≠ 202) :
    pollLoop s tok cur rs trace = ⟨s, trace, .ok false⟩ := by
  rw [pollLoop.eq_def]
  simp [h]

theorem pollLoop_step (s : OctoPrintState) (tok : String) (r : HttpResponse)
    (rest : List HttpResponse) (trace : List ReqRecord)
    (h200 : r.status ≠ 200) (h404 : r.status ≠ 404) :
    pollLoop s tok 202 (r :: rest) trace =
      pollLoop s tok r.status rest (trace ++ [pollReq s tok]) := by
  rw [pollLoop.eq_def]
  simp [h200, h404]

theorem pollLoop_denied_step (s : OctoPrintState) (tok : String)
    (r : HttpResponse) (rest : List HttpResponse) (trace : List ReqRecord)
    (h404 : r.status = 404) :
    pollLoop s tok 202 (r :: rest) trace =
      ⟨s, trace ++ [pollReq s tok], .exn "User denied access"⟩ := by
  rw [pollLoop.eq_def]
  simp [h404]

theorem pollLoop_success_step (s : OctoPrintState) (tok : String)
    (r : HttpResponse) (rest : List HttpResponse) (trace : List ReqRecord)
    (k : String) (h200 : r.status = 200) (hk : r.api_key = some k) :
    pollLoop s tok 202 (r :: rest) trace =
      ⟨{ s with
          api_key := some k
          headers := [("X-Api-Key", k)]
          connected := true },
        trace ++ [pollReq s tok], .ok true⟩ := by
  rw [pollLoop.eq_def]
  simp [h200, hk, OctoPrint._set_api_key]

theorem get_api_key_poll_phase (s : OctoPrintState) (r1 r2 p0 : HttpResponse)
    (rest : List HttpResponse) (tok : String) (h1 : r1.status = 204)
    (h2 : r2.status = 201) (ht : r2.app_token = some tok) :
    OctoPrint.get_api_key s (r1 :: r2 :: p0 :: rest) =
      pollLoop s tok p0.status rest
        [probeReq s, requestReq s, pollReq s tok] := by
  simp [OctoPrint.get_api_key, h1, h2, ht]

theorem pollLoop_state_cases (s : OctoPrintState) (tok : String) :
    ∀ (rs : List HttpResponse) (cur : Nat) (trace : List ReqRecord),
    (pollLoop s tok cur rs trace).state = s ∨
    ∃ k, (pollLoop s tok cur rs trace).state =
      { s with
        api_key := some k
        headers := [("X-Api-Key", k)]
        connected := true } := by
  intro rs
  induction rs with
  | nil =>
    intro cur trace
    by_cases h : cur = 202
    · subst h
      exact Or.inl rfl
    · rw [pollLoop_exit s tok cur [] trace h]
      exact Or.inl rfl
  | cons r rest ih =>
    intro cur trace
    by_cases h : cur = 202
    · subst h
      by_cases h200 : r.status = 200
      · rcases hk : r.api_key with _ | k
        · rw [pollLoop.eq_def]
          simp [h200, hk]
        · rw [pollLoop_success_step s tok r rest trace k h200 hk]
          exact Or.inr ⟨k, rfl⟩
      · by_cases h404 : r.status = 404
        · rw [pollLoop_denied_step s tok r rest trace h404]
          exact Or.inl rfl
        · rw [pollLoop_step s tok r rest trace h200 h404]
          exact ih r.status (trace ++ [pollReq s tok])
    · rw [pollLoop_exit s tok cur (r :: rest) trace h]
      exact Or.inl rfl

theorem get_api_key_state_cases (s : OctoPrintState)
    (rs : List HttpResponse) :
    (OctoPrint.get_api_key s rs).state = s ∨
    ∃ k, (OctoPrint.get_api_key s rs).state =
      { s with
        api_key := some k
        headers := [("X-Api-Key", k)]
        connected := true } := by
  cases rs with
  | nil => exact Or.inl rfl
  | cons r1 rest =>
    by_cases h1 : r1.status = 204
    · cases rest with
      | nil =>
        refine Or.inl ?_
        simp [OctoPrint.get_api_key, h1]
      | cons r2 rest2 =>
        by_cases h2 : r2.status = 201
        · rcases ht : r2.app_token with _ | tok
          · refine Or.inl ?_
            simp [OctoPrint.get_api_key, h1, h2, ht]
          · cases rest2 with
            | nil =>
              refine Or.inl ?_
              simp [OctoPrint.get_api_key, h1, h2, ht]
            | cons p0 rest3 =>
              rw [get_api_key_poll_phase s r1 r2 p0 rest3 tok h1 h2 ht]
              exact pollLoop_state_cases s tok rest3 p0.status _
        · refine Or.inl ?_
          simp [OctoPrint.get_api_key, h1, h2]
    · refine Or.inl ?_
      simp [OctoPrint.get_api_key, h1]

theorem deregister_state_cases (s : OctoPrintState)
    (o : Option HttpResponse) :
    (OctoPrint.deregister s o).state = s ∨
    (OctoPrint.deregister s o).state = { s with connected := false } := by
  cases o with
  | none => exact Or.inl rfl
  | some r =>
    by_cases h : r.status = 204
    · refine Or.inr ?_
      simp [OctoPrint.deregister, h]
    · refine Or.inl ?_
      simp [OctoPrint.deregister, h]

theorem pause_print_state (s : OctoPrintState) (o : Option HttpResponse) :
    (OctoPrint.pause_print s o).state = s := by
  by_cases h : s.connected = true <;> cases o <;>
    simp [OctoPrint.pause_print, h]

theorem resume_print_state (s : OctoPrintState) (o : Option HttpResponse) :
    (OctoPrint.resume_print s o).state = s := by
  by_cases h : s.connected = true <;> cases o <;>
    simp [OctoPrint.resume_print, h]

theorem applyOp_keyinv (s : OctoPrintState) (op : ClientOp)
    (h : s.connected = true → s.api_key.isSome) :
    (applyOp s op).connected = true → (applyOp s op).api_key.isSome := by
  cases op with
  | set_key k =>
    intro _
    simp [applyOp, OctoPrint._set_api_key]
  | handshake rs =>
    rcases get_api_key_state_cases s rs with hs | ⟨k, hk⟩
    · simpa [applyOp, hs] using h
    · simp [applyOp, hk]
  | dereg r =>
    rcases deregister_state_cases s r with hs | hs
    · simpa [applyOp, hs] using h
    · simp [applyOp, hs]
  | pause r =>
    simpa [applyOp, pause_print_state s r] using h
  | resume r =>
    simpa [applyOp, resume_print_state s r] using h

/-- C9: `_set_api_key` is idempotent: calling it twice with the same key
leaves the whole client state (in particular the header dictionary)
identical to calling it once. -/
theorem set_api_key_idempotent (s : OctoPrintState) (k : String) :
    OctoPrint._set_api_key (OctoPrint._set_api_key s k).1 k =
      OctoPrint._set_api_key s k := rfl

/-- C4: `deregister` on a status-204 response sets `connected := false`
and returns `True`; on a response of any other status it leaves the state
(in particular `connected`) unchanged and returns `False`. -/
theorem deregister_status_cases (s : OctoPrintState) (r : HttpResponse) :
    (r.status = 204 →
      OctoPrint.deregister s (some r) =
        ⟨{ s with connected := false },
          [⟨s.base_url ++ "api/plugin/appkeys", "revoke", s.api_key⟩],
          true⟩) ∧
    (r.status ≠ 204 →
      OctoPrint.deregister s (some r) =
        ⟨s, [⟨s.base_url ++ "api/plugin/appkeys", "revoke", s.api_key⟩],
          false⟩) := by
  constructor <;> intro h <;> simp [OctoPrint.deregister, h]

/-- Witness for C4 at a concrete client and the statuses 204 and 403. -/
theorem deregister_status_cases_witness :
    OctoPrint.deregister demoClient (some ⟨204, none, none⟩) =
      ⟨{ demoClient with connected := false },
        [⟨demoClient.base_url ++ "api/plugin/appkeys", "revoke", none⟩],
        true⟩ ∧
    OctoPrint.deregister demoClient (some ⟨403, none, none⟩) =
      ⟨demoClient,
        [⟨demoClient.base_url ++ "api/plugin/appkeys", "revoke", none⟩],
        false⟩ :=
  ⟨(deregister_status_cases demoClient ⟨204, none, none⟩).1 rfl,
    (deregister_status_cases demoClient ⟨403, none, none⟩).2 (by decide)⟩

/-- C5 counterexample: on a client with no stored key (`api_key = none`),
`deregister` still issues one revoke POST, refuting the claim that no
revoke request is sent when no key is stored. -/
theorem deregister_no_key_counterexample :
    demoClient.api_key = none ∧
    (OctoPrint.deregister demoClient (some ⟨204, none, none⟩)).trace ≠
      [] := by
  constructor
  · rfl
  · decide

/-- C5 (amended): `deregister` always issues exactly one POST of the body
`command: "revoke", key: apiKey` to the appkeys sub-path, whether or not
a key is stored; when no key is stored the key field carries the stored
`None`. -/
theorem deregister_posts_unconditionally (s : OctoPrintState)
    (o : Option HttpResponse) :
    (OctoPrint.deregister s o).trace =
      [⟨s.base_url ++ "api/plugin/appkeys", "revoke", s.api_key⟩] := by
  cases o with
  | none => rfl
  | some r => by_cases h : r.status = 204 <;> simp [OctoPrint.deregister, h]

/-- C6: with `connected = false`, `pause_print` and `resume_print` return
the failure sentinel, issue no HTTP request (empty trace), and leave the
state unchanged. -/
theorem commands_require_connected (s : OctoPrintState)
    (o o2 : Option HttpResponse) (h : s.connected = false) :
    OctoPrint.pause_print s o = ⟨s, [], .failure⟩ ∧
    OctoPrint.resume_print s o2 = ⟨s, [], .failure⟩ := by
  constructor <;>
    simp [OctoPrint.pause_print, OctoPrint.resume_print, h]

/-- Witness for C6 at a concrete disconnected client. -/
theorem commands_require_connected_witness :
    demoClient.connected = false ∧
    OctoPrint.pause_print demoClient none = ⟨demoClient, [], .failure⟩ ∧
    OctoPrint.resume_print demoClient none = ⟨demoClient, [], .failure⟩ :=
  ⟨rfl, (commands_require_connected demoClient none none rfl).1,
    (commands_require_connected demoClient none none rfl).2⟩

/-- C3: every read operation returns the unavailable sentinel (`False`)
when the response body fails to parse, instead of raising (the result
type of the embedded read operations has no exceptional outcome because
the source catches `ValueError`). -/
theorem read_ops_malformed_sentinel (s : OctoPrintState) (r : ReadResponse)
    (h : r.body = none) :
    (OctoPrint.get_printer_version s r).2 = .unavailable ∧
    (OctoPrint.get_printer_status s r).2 = .unavailable ∧
    (OctoPrint.get_printer_connection s r).2 = .unavailable ∧
    (OctoPrint.get_printer_files s r).2 = .unavailable ∧
    (OctoPrint.get_printer_job s r).2 = .unavailable ∧
    (OctoPrint.get_printer_tool_state s r).2 = .unavailable ∧
    (OctoPrint.get_printer_bed_state s r).2 = .unavailable ∧
    (OctoPrint.get_printer_chamber_state s r).2 = .unavailable ∧
    (OctoPrint.get_printer_sd_state s r).2 = .unavailable ∧
    (OctoPrint.get_printer_profiles s r).2 = .unavailable ∧
    (OctoPrint.get_printer_settings s r).2 = .unavailable ∧
    (OctoPrint.get_slicing s r).2 = .unavailable ∧
    (OctoPrint.get_system_commands s r).2 = .unavailable ∧
    (OctoPrint.get_timelapse s r).2 = .unavailable ∧
    (OctoPrint.retrieve_appkeys s r).2 = .unavailable := by
  simp [OctoPrint.get_printer_version, OctoPrint.get_printer_status,
    OctoPrint.get_printer_connection, OctoPrint.get_printer_files,
    OctoPrint.get_printer_job, OctoPrint.get_printer_tool_state,
    OctoPrint.get_printer_bed_state, OctoPrint.get_printer_chamber_state,
    OctoPrint.get_printer_sd_state, OctoPrint.get_printer_profiles,
    OctoPrint.get_printer_settings, OctoPrint.get_slicing,
    OctoPrint.get_system_commands, OctoPrint.get_timelapse,
    OctoPrint.retrieve_appkeys, readJson, h]

/-- Witness for C3 at a concrete client and a malformed body. -/
theorem read_ops_malformed_sentinel_witness :
    (OctoPrint.get_printer_version demoClient ⟨none⟩).2 = .unavailable ∧
    (OctoPrint.get_printer_status demoClient ⟨none⟩).2 = .unavailable ∧
    (OctoPrint.get_printer_connection demoClient ⟨none⟩).2 = .unavailable ∧
    (OctoPrint.get_printer_files demoClient ⟨none⟩).2 = .unavailable ∧
    (OctoPrint.get_printer_job demoClient ⟨none⟩).2 = .unavailable ∧
    (OctoPrint.get_printer_tool_state demoClient ⟨none⟩).2 = .unavailable ∧
    (OctoPrint.get_printer_bed_state demoClient ⟨none⟩).2 = .unavailable ∧
    (OctoPrint.get_printer_chamber_state demoClient ⟨none⟩).2 =
      .unavailable ∧
    (OctoPrint.get_printer_sd_state demoClient ⟨none⟩).2 = .unavailable ∧
    (OctoPrint.get_printer_profiles demoClient ⟨none⟩).2 = .unavailable ∧
    (OctoPrint.get_printer_settings demoClient ⟨none⟩).2 = .unavailable ∧
    (OctoPrint.get_slicing demoClient ⟨none⟩).2 = .unavailable ∧
    (OctoPrint.get_system_commands demoClient ⟨none⟩).2 = .unavailable ∧
    (OctoPrint.get_timelapse demoClient ⟨none⟩).2 = .unavailable ∧
    (OctoPrint.retrieve_appkeys demoClient ⟨none⟩).2 = .unavailable :=
  read_ops_malformed_sentinel demoClient ⟨none⟩ rfl

/-- C1 counterexample: for probe 204, request 201, and poll statuses
202, 202, 200 the handshake succeeds and stores the key, but makes 5 HTTP
requests, not the claimed 4. -/
theorem handshake_four_requests_counterexample :
    (OctoPrint.get_api_key demoClient
      [⟨204, none, none⟩, ⟨201, some "tok", none⟩, ⟨202, none, none⟩,
        ⟨202, none, none⟩, ⟨200, none, some "KEY"⟩]).result = .ok true ∧
    (OctoPrint.get_api_key demoClient
      [⟨204, none, none⟩, ⟨201, some "tok", none⟩, ⟨202, none, none⟩,
        ⟨202, none, none⟩, ⟨200, none, some "KEY"⟩]).state.api_key =
      some "KEY" ∧
    (OctoPrint.get_api_key demoClient
      [⟨204, none, none⟩, ⟨201, some "tok", none⟩, ⟨202, none, none⟩,
        ⟨202, none, none⟩, ⟨200, none, some "KEY"⟩]).trace.length ≠ 4 := by
  refine ⟨by decide, by decide, by decide⟩

/-- C1 (amended): for probe 204, request 201 with an `app_token`, and poll
statuses 202, 202, 200 with the key in the final body, the handshake
succeeds, stores the key via `_set_api_key`, marks the client connected,
and issues exactly 5 requests in the order probe, request, poll, poll,
poll. -/
theorem handshake_success_five_requests (s : OctoPrintState)
    (r1 r2 p1 p2 p3 : HttpResponse) (tok key : String)
    (h1 : r1.status = 204) (h2 : r2.status = 201)
    (ht : r2.app_token = some tok) (hp1 : p1.status = 202)
    (hp2 : p2.status = 202) (hp3 : p3.status = 200)
    (hk : p3.api_key = some key) :
    OctoPrint.get_api_key s [r1, r2, p1, p2, p3] =
      ⟨{ s with
          api_key := some key
          headers := [("X-Api-Key", key)]
          connected := true },
        [probeReq s, requestReq s, pollReq s tok, pollReq s tok,
          pollReq s tok], .ok true⟩ := by
  rw [get_api_key_poll_phase s r1 r2 p1 [p2, p3] tok h1 h2 ht, hp1,
    pollLoop_step s tok p2 [p3] _ (by simp [hp2]) (by simp [hp2]), hp2,
    pollLoop_success_step s tok p3 [] _ key hp3 hk]
  simp

/-- Witness for the amended C1 at a concrete client and oracle. -/
theorem handshake_success_five_requests_witness :
    OctoPrint.get_api_key demoClient
      [⟨204, none, none⟩, ⟨201, some "t1", none⟩, ⟨202, none, none⟩,
        ⟨202, none, none⟩, ⟨200, none, some "k1"⟩] =
      ⟨{ demoClient with
          api_key := some "k1"
          headers := [("X-Api-Key", "k1")]
          connected := true },
        [probeReq demoClient, requestReq demoClient,
          pollReq demoClient "t1", pollReq demoClient "t1",
          pollReq demoClient "t1"], .ok true⟩ :=
  handshake_success_five_requests demoClient ⟨204, none, none⟩
    ⟨201, some "t1", none⟩ ⟨202, none, none⟩ ⟨202, none, none⟩
    ⟨200, none, some "k1"⟩ "t1" "k1" rfl rfl rfl rfl rfl rfl rfl

theorem pollLoop_denied_of_pending (s : OctoPrintState) (tok : String)
    (r404 : HttpResponse) (h4 : r404.status = 404)
    (rest : List HttpResponse) (pre : List HttpResponse) :
    ∀ trace, (∀ r ∈ pre, r.status = 202) →
    ∃ t, pollLoop s tok 202 (pre ++ r404 :: rest) trace =
      ⟨s, t, .exn "User denied access"⟩ := by
  induction pre with
  | nil =>
    intro trace _
    exact ⟨trace ++ [pollReq s tok],
      pollLoop_denied_step s tok r404 rest trace h4⟩
  | cons a pre ih =>
    intro trace hpre
    have ha : a.status = 202 := hpre a (List.mem_cons_self a pre)
    rw [List.cons_append,
      pollLoop_step s tok a _ trace (by simp [ha]) (by simp [ha]), ha]
    exact ih _ (fun r hr => hpre r (List.mem_cons_of_mem a hr))

/-- C2 (amended): in every handshake run where the initial poll returns
202 and a later poll returns 404 after any number of further 202s, the
operation ends in the user-denied error ("User denied access") and stores
no credential: the state, in particular `api_key` and `connected`, is
unchanged.  (When the very first poll returns 404 the code instead falls
through the `while 202` loop and returns `False` with no error.) -/
theorem handshake_denied_after_pending (s : OctoPrintState)
    (r1 r2 p0 r404 : HttpResponse) (tok : String)
    (pre rest : List HttpResponse) (h1 : r1.status = 204)
    (h2 : r2.status = 201) (ht : r2.app_token = some tok)
    (hp0 : p0.status = 202) (hpre : ∀ r ∈ pre, r.status = 202)
    (h4 : r404.status = 404) :
    (OctoPrint.get_api_key s
      (r1 :: r2 :: p0 :: (pre ++ r404 :: rest))).state = s ∧
    (OctoPrint.get_api_key s
      (r1 :: r2 :: p0 :: (pre ++ r404 :: rest))).result =
      .exn "User denied access" := by
  obtain ⟨t, hpoll⟩ := pollLoop_denied_of_pending s tok r404 h4 rest pre
    [probeReq s, requestReq s, pollReq s tok] hpre
  rw [get_api_key_poll_phase s r1 r2 p0 _ tok h1 h2 ht, hp0, hpoll]
  exact ⟨rfl, rfl⟩

/-- Witness for the amended C2 at a concrete run with polls 202, 202,
404. -/
theorem handshake_denied_after_pending_witness :
    (OctoPrint.get_api_key demoClient
      [⟨204, none, none⟩, ⟨201, some "t2", none⟩, ⟨202, none, none⟩,
        ⟨202, none, none⟩, ⟨404, none, none⟩]).state = demoClient ∧
    (OctoPrint.get_api_key demoClient
      [⟨204, none, none⟩, ⟨201, some "t2", none⟩, ⟨202, none, none⟩,
        ⟨202, none, none⟩, ⟨404, none, none⟩]).result =
      .exn "User denied access" :=
  handshake_denied_after_pending demoClient ⟨204, none, none⟩
    ⟨201, some "t2", none⟩ ⟨202, none, none⟩ ⟨404, none, none⟩ "t2"
    [⟨202, none, none⟩] [] rfl rfl rfl rfl (by decide) rfl

/-- C2 counterexample: a handshake run in which a poll of the
request-status sub-path returns 404 (here the very first poll) yet the
operation returns plain `False` — not the user-denied error — while the
claim requires the "access denied" failure in every such run. -/
theorem handshake_first_poll_404_counterexample :
    (OctoPrint.get_api_key demoClient
      [⟨204, none, none⟩, ⟨201, some "tok", none⟩,
        ⟨404, none, none⟩]).result = .ok false ∧
    (OctoPrint.get_api_key demoClient
      [⟨204, none, none⟩, ⟨201, some "tok", none⟩,
        ⟨404, none, none⟩]).result ≠ .exn "User denied access" := by
  refine ⟨by decide, by decide⟩

/-- C8: when the very first poll returns 200 (immediate approval) with
the key present in the body, the `while 202` loop is never entered and
`get_api_key` returns `False`, leaving the state — in particular
`api_key` and `connected` — unchanged, after the requests probe, request,
poll. -/
theorem handshake_immediate_200_returns_false (s : OctoPrintState)
    (r1 r2 p0 : HttpResponse) (rest : List HttpResponse) (tok key : String)
    (h1 : r1.status = 204) (h2 : r2.status = 201)
    (ht : r2.app_token = some tok) (hp0 : p0.status = 200)
    (hk : p0.api_key = some key) :
    OctoPrint.get_api_key s (r1 :: r2 :: p0 :: rest) =
      ⟨s, [probeReq s, requestReq s, pollReq s tok], .ok false⟩ := by
  rw [get_api_key_poll_phase s r1 r2 p0 rest tok h1 h2 ht, hp0,
    pollLoop_exit s tok 200 rest _ (by decide)]

/-- Witness for C8 at a concrete run whose first poll is an approved 200
carrying a key. -/
theorem handshake_immediate_200_witness :
    OctoPrint.get_api_key demoClient
      [⟨204, none, none⟩, ⟨201, some "t3", none⟩,
        ⟨200, none, some "k3"⟩] =
      ⟨demoClient,
        [probeReq demoClient, requestReq demoClient,
          pollReq demoClient "t3"], .ok false⟩ :=
  handshake_immediate_200_returns_false demoClient ⟨204, none, none⟩
    ⟨201, some "t3", none⟩ ⟨200, none, some "k3"⟩ [] "t3" "k3"
    rfl rfl rfl rfl rfl

/-- C7: in every state reachable from construction by any sequence of
`_set_api_key`, `get_api_key`, `deregister`, `pause_print`, and
`resume_print`, `connected = true` implies a key is stored. -/
theorem reachable_connected_implies_key (host : String) (port : Nat)
    (path : String) (ops : List ClientOp)
    (h : (runOps (OctoPrint.init host port path) ops).connected = true) :
    (runOps (OctoPrint.init host port path) ops).api_key.isSome := by
  have main : ∀ (l : List ClientOp) (s : OctoPrintState),
      (s.connected = true → s.api_key.isSome) →
      ((runOps s l).connected = true → (runOps s l).api_key.isSome) := by
    intro l
    induction l with
    | nil =>
      intro s hs
      simpa [runOps] using hs
    | cons op rest ih =>
      intro s hs
      simp only [runOps, List.foldl]
      exact ih (applyOp s op) (applyOp_keyinv s op hs)
  refine main ops (OctoPrint.init host port path) ?_ h
  intro hc
  simp [OctoPrint.init] at hc

/-- Witness for C7: a trace consisting of one successful handshake leaves
the client connected with a stored key. -/
theorem reachable_connected_implies_key_witness :
    (runOps (OctoPrint.init "h" 80 "/")
      [ClientOp.handshake [⟨204, none, none⟩, ⟨201, some "t4", none⟩,
        ⟨202, none, none⟩, ⟨200, none, some "k4"⟩]]).connected = true ∧
    (runOps (OctoPrint.init "h" 80 "/")
      [ClientOp.handshake [⟨204, none, none⟩, ⟨201, some "t4", none⟩,
        ⟨202, none, none⟩, ⟨200, none, some "k4"⟩]]).api_key.isSome :=
  ⟨by decide,
    reachable_connected_implies_key "h" 80 "/"
      [ClientOp.handshake [⟨204, none, none⟩, ⟨201, some "t4", none⟩,
        ⟨202, none, none⟩, ⟨200, none, some "k4"⟩]] (by decide)⟩

/-- C10: a client constructed with host "h", port 81, basePath "/x/" has
base URL "http://h:81/x/", and every operation's request URL is that base
URL followed verbatim by the operation's fixed sub-path. -/
theorem base_url_round_trip :
    (OctoPrint.init "h" 81 "/x/").base_url = "http://h:81/x/" ∧
    (∀ r, (OctoPrint.get_printer_version (OctoPrint.init "h" 81 "/x/")
      r).1.url = "http://h:81/x/" ++ "api/version") ∧
    (∀ r, (OctoPrint.get_printer_status (OctoPrint.init "h" 81 "/x/")
      r).1.url = "http://h:81/x/" ++ "api/printer") ∧
    (∀ r, (OctoPrint.get_printer_connection (OctoPrint.init "h" 81 "/x/")
      r).1.url = "http://h:81/x/" ++ "api/connection") ∧
    (∀ r, (OctoPrint.get_printer_files (OctoPrint.init "h" 81 "/x/")
      r).1.url = "http://h:81/x/" ++ "api/files?recursive=true") ∧
    (∀ r, (OctoPrint.get_printer_job (OctoPrint.init "h" 81 "/x/")
      r).1.url = "http://h:81/x/" ++ "api/job") ∧
    (∀ r, (OctoPrint.get_printer_tool_state (OctoPrint.init "h" 81 "/x/")
      r).1.url = "http://h:81/x/" ++ "api/printer/tool") ∧
    (∀ r, (OctoPrint.get_printer_bed_state (OctoPrint.init "h" 81 "/x/")
      r).1.url = "http://h:81/x/" ++ "api/printer/bed") ∧
    (∀ r, (OctoPrint.get_printer_chamber_state
      (OctoPrint.init "h" 81 "/x/") r).1.url =
      "http://h:81/x/" ++ "api/printer/chamber") ∧
    (∀ r, (OctoPrint.get_printer_sd_state (OctoPrint.init "h" 81 "/x/")
      r).1.url = "http://h:81/x/" ++ "api/printer/sd") ∧
    (∀ r, (OctoPrint.get_printer_profiles (OctoPrint.init "h" 81 "/x/")
      r).1.url = "http://h:81/x/" ++ "api/printerprofiles") ∧
    (∀ r, (OctoPrint.get_printer_settings (OctoPrint.init "h" 81 "/x/")
      r).1.url = "http://h:81/x/" ++ "api/settings") ∧
    (∀ r, (OctoPrint.get_slicing (OctoPrint.init "h" 81 "/x/") r).1.url =
      "http://h:81/x/" ++ "api/slicing") ∧
    (∀ r, (OctoPrint.get_system_commands (OctoPrint.init "h" 81 "/x/")
      r).1.url = "http://h:81/x/" ++ "api/system/commands") ∧
    (∀ r, (OctoPrint.get_timelapse (OctoPrint.init "h" 81 "/x/") r).1.url =
      "http://h:81/x/" ++ "api/timelapse") ∧
    (∀ r, (OctoPrint.retrieve_appkeys (OctoPrint.init "h" 81 "/x/")
      r).1.url = "http://h:81/x/" ++ "api/plugin/appkeys") ∧
    (∀ r, (OctoPrint.set_printer_settings (OctoPrint.init "h" 81 "/x/")
      r).1.url = "http://h:81/x/" ++ "api/settings") ∧
    (probeReq (OctoPrint.init "h" 81 "/x/")).url =
      "http://h:81/x/" ++ "plugin/appkeys/probe" ∧
    (requestReq (OctoPrint.init "h" 81 "/x/")).url =
      "http://h:81/x/" ++ "plugin/appkeys/request" ∧
    (∀ tok, (pollReq (OctoPrint.init "h" 81 "/x/") tok).url =
      "http://h:81/x/" ++ ("plugin/appkeys/request/" ++ tok)) ∧
    (∀ o, (OctoPrint.deregister (OctoPrint.init "h" 81 "/x/") o).trace =
      [⟨"http://h:81/x/" ++ "api/plugin/appkeys", "revoke", none⟩]) ∧
    (∀ o, (OctoPrint.pause_print
      { OctoPrint.init "h" 81 "/x/" with connected := true } o).trace =
      [⟨"http://h:81/x/" ++ "api/job", "pause", "pause"⟩]) ∧
    (∀ o, (OctoPrint.resume_print
      { OctoPrint.init "h" 81 "/x/" with connected := true } o).trace =
      [⟨"http://h:81/x/" ++ "api/job", "pause", "resume"⟩]) := by
  refine ⟨rfl, fun r => rfl, fun r => rfl, fun r => rfl, fun r => rfl,
    fun r => rfl, fun r => rfl, fun r => rfl, fun r => rfl, fun r => rfl,
    fun r => rfl, fun r => rfl, fun r => rfl, fun r => rfl, fun r => rfl,
    fun r => rfl, fun r => rfl, rfl, rfl, fun tok => ?_, fun o => ?_,
    fun o => ?_, fun o => ?_⟩
  · show (OctoPrint.init "h" 81 "/x/").base_url ++
      "plugin/appkeys/request/" ++ tok =
      "http://h:81/x/" ++ ("plugin/appkeys/request/" ++ tok)
    rw [← String.append_assoc]
    congr 1
  · cases o with
    | none => rfl
    | some r =>
      by_cases h : r.status = 204 <;> simp [OctoPrint.deregister, h] <;>
        exact ⟨by decide, rfl⟩
  · cases o <;> rfl
  · cases o <;> rfl
